import Mathlib

/-!
Verification development for the remote-task layer of the analysis
playground repository (`ap/tasks/base/remote.py`).

The Python source is shallowly embedded: every stateful method becomes a
pure function over explicit records, the process environment and the
filesystem become explicit arguments, fallible code returns an error
value.  Machine floats (the fractional-hour runtime parameter) are
modelled by exact rationals.
-/

namespace Remote

/-! ### Filesystem and string helpers (os.path equivalents) -/

/-- Model of `os.path.basename`: the longest suffix of `s` containing no
slash (Python drops everything up to and including the last `/`). -/
def basename (s : String) : String :=
  ((s.data.reverse.takeWhile (fun c => c ≠ '/')).reverse).asString

/-- Model of Python `str.rfind(c)` on a character list: the index of the
last occurrence of `c`, or `-1` when `c` does not occur. -/
def lastIndexOf (s : List Char) (c : Char) : Int :=
  match s with
  | [] => -1
  | a :: rest =>
    let r := lastIndexOf rest c
    if r ≥ 0 then r + 1 else if a = c then 0 else -1

/-- Model of `os.path.splitext` (posixpath `_splitext` with `sep = '/'`,
`extsep = '.'`): split at the last dot that lies after the last slash,
unless every character between them is a dot (leading dots of the
basename never start an extension). -/
def splitext (p : String) : String × String :=
  let cs := p.data
  let sepIndex := lastIndexOf cs '/'
  let dotIndex := lastIndexOf cs '.'
  let hasNonDot := (List.range cs.length).any fun j =>
    decide (sepIndex + 1 ≤ (j : Int)) && decide ((j : Int) < dotIndex) &&
      (cs.getD j ' ' ≠ '.')
  if sepIndex < dotIndex && hasNonDot then
    ((cs.take dotIndex.toNat).asString, (cs.drop dotIndex.toNat).asString)
  else
    (p, "")

/-! ### Software-bundle checksum (`BundleSoftware.checksum`) -/

/-- Model of Python `os.environ["AP_SOFTWARE_FLAG_FILES"].strip().split()`:
whitespace-split the variable, dropping empty fields. -/
def flagFilesOf (envVal : String) : List String :=
  (envVal.trim.split (fun c => c.isWhitespace)).filter (fun s => s ≠ "")

/-- The ordered `(path, trimmed content)` pairs read by
`BundleSoftware.checksum`: the filesystem is an explicit partial map from
paths to textual contents; a path mapped to `none` does not exist and is
skipped, an existing file contributes its `strip()`ped content. -/
def softwareFlagContents (fileContents : String → Option String)
    (flagFiles : List String) : List (String × String) :=
  flagFiles.filterMap fun p => (fileContents p).map fun c => (p, c.trim)

/-- Model of the `BundleSoftware.checksum` property: the external
`law.util.create_hash` is an explicit hash-function argument applied to
the collected `(path, trimmed content)` pairs. -/
def bundleSoftwareChecksum (hash : List (String × String) → String)
    (fileContents : String → Option String) (flagFiles : List String) : String :=
  hash (softwareFlagContents fileContents flagFiles)

/-! ### Replica file patterns (`get_file_pattern`) -/

/-- External collaborator `law.tasks.TransferLocalFile.get_replicated_path`,
modelled from the spec's archive-naming convention: with no index the
path is returned unchanged; with an index (or wildcard) `i` the segment
`.i` is inserted before the extension. -/
def get_replicated_path (path : String) (i : Option String) : String :=
  match i with
  | none => path
  | some s =>
    let ne := splitext path
    ne.1 ++ "." ++ s ++ ne.2

/-- Model of `BundleRepo.get_file_pattern` / `BundleSoftware.get_file_pattern`
(identical bodies): `self.get_replicated_path(path, i=None if self.replicas <= 0
else "*")`, where `path` is the single-output path of the bundle. -/
def get_file_pattern (replicas : Int) (path : String) : String :=
  get_replicated_path path (if replicas ≤ 0 then none else some "*")

/-! ### Workflow requirements (`HTCondorWorkflow.htcondor_workflow_requires`) -/

/-- A requirement entry of the workflow-requirements map: the bundle
tasks inserted by `htcondor_workflow_requires`, each carrying the replica
count it is constructed with (`replicas=3`), and for CMSSW bundles the
list of `(replicas, sandbox_file)` pairs. -/
inductive ReqEntry where
  | repoBundle : Int → ReqEntry
  | softwareBundle : Int → ReqEntry
  | cmsswBundles : List (Int × String) → ReqEntry
deriving DecidableEq

/-- Model of `HTCondorWorkflow.htcondor_workflow_requires`: starting from
the base-class requirements (an opaque ordered key/value list), when
`htcondor_getenv` is not set a repo bundle and a software bundle (3
replicas each) are added, plus one CMSSW bundle per configured sandbox
when the resolved sandbox list is truthy (present and non-empty). -/
def htcondor_workflow_requires (base : List (String × ReqEntry))
    (htcondor_getenv : Bool) (cmsswSandboxes : Option (List String)) :
    List (String × ReqEntry) :=
  if htcondor_getenv then base
  else
    let reqs := base ++ [("repo", ReqEntry.repoBundle 3), ("software", ReqEntry.softwareBundle 3)]
    match cmsswSandboxes with
    | none => reqs
    | some fs =>
      if fs = [] then reqs
      else reqs ++ [("cmssw", ReqEntry.cmsswBundles (fs.map fun f => (3, f)))]

/-- Model of `HTCondorWorkflow.htcondor_use_local_scheduler`: the method
body is `return True`. -/
def htcondor_use_local_scheduler : Bool := true

/-! ### Job configuration (`HTCondorWorkflow.htcondor_job_config`) -/

/-- Value of a custom-content directive: the Python code appends both
strings and integers as directive values. -/
inductive CVal where
  | str : String → CVal
  | int : Int → CVal
deriving DecidableEq

/-- The task parameters consulted by `htcondor_job_config`.  The
fractional-hour `max_runtime` duration parameter is modelled by an exact
rational; `htcondor_cpus` defaults to the sentinel `law.NO_INT = -1` and
`htcondor_group` to the sentinel string `law.NO_STR = "NO_STR"`. -/
structure HTCondorParams where
  max_runtime : ℚ
  htcondor_cpus : Int
  htcondor_flavor : String
  htcondor_getenv : Bool
  htcondor_group : String

/-- Sentinel for an unset integer parameter (`law.NO_INT`). -/
def NO_INT : Int := -1

/-- Sentinel for an unset string parameter (`law.NO_STR`). -/
def NO_STR : String := "NO_STR"

/-- URIs and basename file pattern of a published bundle, as produced by
the `get_bundle_info` helper inside `htcondor_job_config` from the
bundle task's remote output directory. -/
structure BundleInfo where
  uris : List String
  pattern : String

/-- One CMSSW sandbox bundle: its URIs, file pattern and the configured
`sandbox_file` parameter value. -/
structure SandboxInfo where
  uris : List String
  pattern : String
  sandbox_file : String

/-- The external inputs of `htcondor_job_config`: the VOMS proxy file and
the result of the external validity check, the shipped wlcg-tools script
path, the process environment values that are read, and the bundle
information obtained from the workflow requirements (`cmssw = none` when
no CMSSW sandboxes are configured). -/
structure JobEnv where
  proxy_file : String
  proxy_valid : Bool
  wlcg_tools_path : String
  env_path : String
  env_pythonpath : String
  software : BundleInfo
  repo : BundleInfo
  cmssw : Option (List SandboxInfo)
  ap_lcg_dir : String
  ap_base : String
  ap_user : String
  ap_store_name : String
  ap_local_scheduler : String

/-- The mutable job-configuration object handed to
`htcondor_job_config`: the input-file list and the ordered
custom-content directive list are appended to, the render-variables dict
is modelled as a partial map from keys to values. -/
structure JobConfig where
  input_files : List String
  render_variables : String → Option String
  custom_content : List (String × CVal)

/-- A freshly created job configuration (all collections empty). -/
def emptyJobConfig : JobConfig :=
  { input_files := [], render_variables := fun _ => none, custom_content := [] }

/-- Dict assignment `render_variables[k] = v`. -/
def rvUpdate (m : String → Option String) (k v : String) : String → Option String :=
  fun q => if q = k then some v else m q

/-- The `"({})".format(" ".join(map('"{}"'.format, xs)))` formatting used
for the CMSSW sandbox render variables. -/
def parenList (xs : List String) : String :=
  "(" ++ String.intercalate " " (xs.map fun s => "\"" ++ s ++ "\"") ++ ")"

/-- Model of `HTCondorWorkflow.htcondor_job_config`, line by line.  The
Python method mutates `config` and raises on an invalid proxy; here it
returns the final configuration state together with an optional error
message.  The validity check is the first statement of the method, so on
failure the configuration is returned untouched. -/
def htcondor_job_config (ps : HTCondorParams) (env : JobEnv)
    (config : JobConfig) : JobConfig × Option String :=
  if env.proxy_valid = false then
    (config, some "voms proxy not valid, submission aborted")
  else
    let input_files := config.input_files ++ [env.proxy_file, env.wlcg_tools_path]
    let custom_content := config.custom_content
      ++ (if ps.htcondor_flavor = "cern" then
            [("requirements", CVal.str "(OpSysAndVer =?= \"CentOS7\")")] else [])
      ++ (if ps.htcondor_getenv = true then [("getenv", CVal.str "true")] else [])
      ++ [("log", CVal.str "/dev/null"),
          ("+MaxRuntime", CVal.int (Int.floor (ps.max_runtime * 3600) - 1))]
      ++ (if 0 < ps.htcondor_cpus then [("RequestCpus", CVal.int ps.htcondor_cpus)] else [])
      ++ (if ps.htcondor_group ≠ "" ∧ ps.htcondor_group ≠ NO_STR then
            [("+AccountingGroup", CVal.str ps.htcondor_group)] else [])
    let rv := rvUpdate config.render_variables "ap_proxy_file" (basename env.proxy_file)
    let rv :=
      if ps.htcondor_getenv = true then
        rvUpdate (rvUpdate (rvUpdate rv
          "ap_bootstrap_name" "htcondor_getenv")
          "ap_env_path" env.env_path)
          "ap_env_pythonpath" env.env_pythonpath
      else
        let rv := rvUpdate rv "ap_bootstrap_name" "htcondor_standalone"
        let rv := rvUpdate rv "ap_software_uris" (String.intercalate "," env.software.uris)
        let rv := rvUpdate rv "ap_software_pattern" env.software.pattern
        let rv := rvUpdate rv "ap_repo_uris" (String.intercalate "," env.repo.uris)
        let rv := rvUpdate rv "ap_repo_pattern" env.repo.pattern
        let rv := rvUpdate rv "ap_cmssw_sandbox_uris" "()"
        let rv := rvUpdate rv "ap_cmssw_sandbox_patterns" "()"
        let rv := rvUpdate rv "ap_cmssw_sandbox_names" "()"
        match env.cmssw with
        | none => rv
        | some infos =>
          let rv := rvUpdate rv "ap_cmssw_sandbox_uris"
            (parenList (infos.map fun i => String.intercalate "," i.uris))
          let rv := rvUpdate rv "ap_cmssw_sandbox_patterns"
            (parenList (infos.map fun i => i.pattern))
          rvUpdate rv "ap_cmssw_sandbox_names"
            (parenList (infos.map fun i => (basename i.sandbox_file).dropRight 3))
    let rv := rvUpdate rv "ap_htcondor_flavor" ps.htcondor_flavor
    let rv := rvUpdate rv "ap_lcg_dir" env.ap_lcg_dir
    let rv := rvUpdate rv "ap_base" env.ap_base
    let rv := rvUpdate rv "ap_user" env.ap_user
    let rv := rvUpdate rv "ap_store_name" env.ap_store_name
    let rv := rvUpdate rv "ap_local_scheduler" env.ap_local_scheduler
    ({ input_files := input_files, render_variables := rv,
       custom_content := custom_content }, none)

/-! ### Software archive filter (`BundleSoftware.run._filter`) -/

/-- Model of `re.search(r"(\.pyc|\/\.git|\.tgz|__pycache__)$", name)`:
the anchored alternation matches exactly when the entry name ends in one
of the four literal suffixes. -/
def strEndsWith (s suffixPat : String) : Bool :=
  suffixPat.data.isSuffixOf s.data

/-- The tar-entry exclusion test of `BundleSoftware.run._filter`: an
entry is dropped when the regex matches its archive name. -/
def excludedTar (name : String) : Bool :=
  strEndsWith name ".pyc" || strEndsWith name "/.git" ||
    strEndsWith name ".tgz" || strEndsWith name "__pycache__"

/-- A filesystem tree to archive: a file or a directory with an ordered
list of children, each node carrying its own name. -/
inductive FsEntry where
  | file : String → FsEntry
  | dir : String → List FsEntry → FsEntry

mutual
/-- Model of `tarfile.TarFile.add` with the `_filter` callback: the entry
whose archive name is `pre ++ name` is dropped when the filter matches,
and for a dropped directory `add` returns before recursing, so the whole
subtree is omitted; an accepted directory contributes its own entry and
then its children under the extended archive path. -/
def tarAdd (pre : String) : FsEntry → List String
  | FsEntry.file n =>
    if excludedTar (pre ++ n) then [] else [pre ++ n]
  | FsEntry.dir n children =>
    if excludedTar (pre ++ n) then []
    else (pre ++ n) :: tarAddList (pre ++ n ++ "/") children

/-- Archive entries contributed by a list of sibling nodes. -/
def tarAddList (pre : String) : List FsEntry → List String
  | [] => []
  | t :: ts => tarAdd pre t ++ tarAddList pre ts
end

/-- The archive produced by `BundleSoftware.run` from a source tree: the
tree root is added under its own (base)name. -/
def bundleArchive (t : FsEntry) : List String := tarAdd "" t

/-! ## Theorems -/

/-- C10: `htcondor_use_local_scheduler` returns `True` for every workflow
task instance, so a remote job is always configured to use a local
scheduler rather than the central one. -/
theorem use_local_scheduler_always_true : htcondor_use_local_scheduler = true := rfl

/-- C9: when getenv mode is enabled the workflow requirements are exactly
the base requirements (no repo-, software- or sandbox-bundle entries are
added); when getenv mode is disabled the repo and software bundle tasks
are required. -/
theorem workflow_requires_getenv_no_bundles
    (base : List (String × ReqEntry)) (cmsswSandboxes : Option (List String)) :
    htcondor_workflow_requires base true cmsswSandboxes = base ∧
    ("repo", ReqEntry.repoBundle 3) ∈ htcondor_workflow_requires base false cmsswSandboxes ∧
    ("software", ReqEntry.softwareBundle 3) ∈
      htcondor_workflow_requires base false cmsswSandboxes := by
  refine ⟨rfl, ?_, ?_⟩ <;>
    · unfold htcondor_workflow_requires
      match cmsswSandboxes with
      | none => simp
      | some fs =>
        by_cases h : fs = [] <;> simp [h]

/-- C1: the software-bundle checksum is a pure function of the ordered
`(path, trimmed content)` pairs of the existing flag files: two runs over
the same ordered flag-file list whose filesystems agree on every listed
flag file produce the same checksum (under any fixed hash function); no
other input enters the computation. -/
theorem checksum_deterministic (hash : List (String × String) → String)
    (fc₁ fc₂ : String → Option String) (flagFiles : List String)
    (h : ∀ p ∈ flagFiles, fc₁ p = fc₂ p) :
    bundleSoftwareChecksum hash fc₁ flagFiles = bundleSoftwareChecksum hash fc₂ flagFiles := by
  unfold bundleSoftwareChecksum softwareFlagContents
  exact congrArg hash (List.filterMap_congr fun p hp => by rw [h p hp])

/-- C1 witness: two concrete filesystems that agree on the two listed
flag files yield the same checksum. -/
theorem checksum_deterministic_witness :
    bundleSoftwareChecksum (fun l => String.intercalate ";" (l.map fun q => q.1 ++ "=" ++ q.2))
      (fun p => if p = "/a/flag1" then some " v1 " else if p = "/a/flag2" then some "v2" else none)
      ["/a/flag1", "/a/flag2"] =
    bundleSoftwareChecksum (fun l => String.intercalate ";" (l.map fun q => q.1 ++ "=" ++ q.2))
      (fun p => if p = "/a/flag1" then some " v1 " else if p = "/a/flag2" then some "v2" else some "junk")
      ["/a/flag1", "/a/flag2"] :=
  checksum_deterministic _ _ _ _ (by decide)

/-- C8: a listed flag file that does not exist is silently skipped: it
contributes nothing to the hashed list and the checksum computation still
succeeds (it is a total function), equalling the checksum of the list
with the missing path removed. -/
theorem checksum_skips_missing_flag_files (hash : List (String × String) → String)
    (fc : String → Option String) (p : String) (pre post : List String)
    (h : fc p = none) :
    bundleSoftwareChecksum hash fc (pre ++ p :: post) =
      bundleSoftwareChecksum hash fc (pre ++ post) := by
  unfold bundleSoftwareChecksum softwareFlagContents
  simp [List.filterMap_append, List.filterMap_cons, h]

/-- C8 witness: dropping the non-existing middle flag file leaves the
checksum unchanged on a concrete input. -/
theorem checksum_skips_missing_flag_files_witness :
    bundleSoftwareChecksum (fun l => String.intercalate ";" (l.map fun q => q.1 ++ "=" ++ q.2))
      (fun p => if p = "/a/flag1" then some "v1" else none)
      (["/a/flag1"] ++ "/a/missing" :: ["/a/flag1"]) =
    bundleSoftwareChecksum (fun l => String.intercalate ";" (l.map fun q => q.1 ++ "=" ++ q.2))
      (fun p => if p = "/a/flag1" then some "v1" else none)
      (["/a/flag1"] ++ ["/a/flag1"]) :=
  checksum_skips_missing_flag_files _ _ _ _ _ (by decide)

/-- C2 counterexample: the claim is false as stated.  With replica count
`0` the generated pattern is the plain un-suffixed path, which contains
no wildcard at all (the claim asserts a wildcard pattern for count `≤ 0`),
and with replica count `5` the pattern is one `*`-indexed wildcard
pattern, not an enumeration of 5 indexed names. -/
theorem file_pattern_counterexample :
    (get_file_pattern 0 "software.abc123.tgz").data.contains '*' = false ∧
    get_file_pattern 0 "software.abc123.tgz" = "software.abc123.tgz" ∧
    get_file_pattern 5 "software.abc123.tgz" = "software.abc123.*.tgz" := by
  decide

/-- C2 (amended): for a positive replica count the generated file pattern
is a single wildcard pattern with `*` in the replica-index slot before
the extension, and for a replica count of 0 or negative it is the plain
single-output path without any index segment; neither case is an
error. -/
theorem file_pattern_amended (replicas : Int) (path : String) :
    (replicas ≤ 0 → get_file_pattern replicas path = path) ∧
    (0 < replicas →
      get_file_pattern replicas path =
        (splitext path).1 ++ "." ++ "*" ++ (splitext path).2) := by
  constructor
  · intro h
    simp [get_file_pattern, get_replicated_path, h]
  · intro h
    have h' : ¬ replicas ≤ 0 := not_le.mpr h
    simp [get_file_pattern, get_replicated_path, h']

/-- C2 witness: the amended statement evaluated at replica counts 0 and 5
on a concrete bundle path. -/
theorem file_pattern_amended_witness :
    get_file_pattern 0 "software.abc123.tgz" = "software.abc123.tgz" ∧
    get_file_pattern 5 "software.abc123.tgz" =
      (splitext "software.abc123.tgz").1 ++ "." ++ "*" ++ (splitext "software.abc123.tgz").2 :=
  ⟨(file_pattern_amended 0 "software.abc123.tgz").1 (by decide),
   (file_pattern_amended 5 "software.abc123.tgz").2 (by decide)⟩

/-- Concrete parameters with getenv mode enabled and all optional
parameters at their sentinel defaults. -/
def psGetenvEx : HTCondorParams :=
  { max_runtime := 2, htcondor_cpus := NO_INT, htcondor_flavor := "cern",
    htcondor_getenv := true, htcondor_group := NO_STR }

/-- Concrete parameters with getenv mode disabled, 4 CPUs requested and
an accounting group set. -/
def psStandaloneEx : HTCondorParams :=
  { max_runtime := 2, htcondor_cpus := 4, htcondor_flavor := "cern",
    htcondor_getenv := false, htcondor_group := "group_u_ANALYSIS" }

/-- Concrete external inputs with a valid proxy. -/
def envValidEx : JobEnv :=
  { proxy_file := "/tmp/x509up_u1000", proxy_valid := true,
    wlcg_tools_path := "/law/contrib/wlcg/scripts/law_wlcg_tools.sh",
    env_path := "/usr/bin", env_pythonpath := "/py",
    software := { uris := ["root://a/software.tgz", "root://b/software.tgz"],
                  pattern := "software.abc.*.tgz" },
    repo := { uris := ["root://a/repo.tgz"], pattern := "repo.def.*.tgz" },
    cmssw := none,
    ap_lcg_dir := "/cvmfs/lcg", ap_base := "/ana", ap_user := "user",
    ap_store_name := "store", ap_local_scheduler := "true" }

/-- Concrete external inputs whose proxy-validity check failed. -/
def envInvalidEx : JobEnv :=
  { envValidEx with proxy_valid := false }

/-- C3: with an invalid or missing security proxy credential,
`htcondor_job_config` raises immediately and the job configuration is
returned exactly as it came in: no render variable set, no input file
appended, no custom directive emitted. -/
theorem job_config_invalid_proxy_aborts (ps : HTCondorParams) (env : JobEnv)
    (config : JobConfig) (h : env.proxy_valid = false) :
    htcondor_job_config ps env config =
      (config, some "voms proxy not valid, submission aborted") := by
  simp [htcondor_job_config, h]

/-- C3 witness: composing with the concrete invalid credential leaves the
fresh configuration untouched and reports the abort. -/
theorem job_config_invalid_proxy_aborts_witness :
    htcondor_job_config psGetenvEx envInvalidEx emptyJobConfig =
      (emptyJobConfig, some "voms proxy not valid, submission aborted") :=
  job_config_invalid_proxy_aborts psGetenvEx envInvalidEx emptyJobConfig rfl

/-- C4: the emitted `+MaxRuntime` directive value equals
`floor(max_runtime_hours * 3600) - 1` seconds, and for the default
`max_runtime = 2.0` hours the emitted value is `7199`. -/
theorem job_config_max_runtime (ps : HTCondorParams) (env : JobEnv)
    (h : env.proxy_valid = true) :
    ("+MaxRuntime", CVal.int (Int.floor (ps.max_runtime * 3600) - 1)) ∈
      (htcondor_job_config ps env emptyJobConfig).1.custom_content ∧
    (ps.max_runtime = 2 →
      ("+MaxRuntime", CVal.int 7199) ∈
        (htcondor_job_config ps env emptyJobConfig).1.custom_content) := by
  have hmem : ("+MaxRuntime", CVal.int (Int.floor (ps.max_runtime * 3600) - 1)) ∈
      (htcondor_job_config ps env emptyJobConfig).1.custom_content := by
    simp [htcondor_job_config, h, emptyJobConfig]
  refine ⟨hmem, fun hm => ?_⟩
  have hv : Int.floor ((2 : ℚ) * 3600) - 1 = 7199 := by norm_num
  rw [hm, hv] at hmem
  exact hmem

/-- C4 witness: with the concrete default parameters (runtime 2 hours)
the directive value 7199 is emitted. -/
theorem job_config_max_runtime_witness :
    ("+MaxRuntime", CVal.int 7199) ∈
      (htcondor_job_config psGetenvEx envValidEx emptyJobConfig).1.custom_content :=
  (job_config_max_runtime psGetenvEx envValidEx rfl).2 rfl

/-- C5: the two provisioning modes are mutually exclusive in the render
variables: in getenv mode the environment-passthrough keys are set and
no bundle-URI or bundle-pattern key is present; with getenv disabled the
software- and repo-bundle URI and pattern keys are set and no
environment-passthrough key is present. -/
theorem job_config_mode_exclusive (ps : HTCondorParams) (env : JobEnv)
    (h : env.proxy_valid = true) :
    (ps.htcondor_getenv = true →
      (htcondor_job_config ps env emptyJobConfig).1.render_variables "ap_env_path" =
          some env.env_path ∧
      (htcondor_job_config ps env emptyJobConfig).1.render_variables "ap_env_pythonpath" =
          some env.env_pythonpath ∧
      (htcondor_job_config ps env emptyJobConfig).1.render_variables "ap_software_uris" = none ∧
      (htcondor_job_config ps env emptyJobConfig).1.render_variables "ap_software_pattern" = none ∧
      (htcondor_job_config ps env emptyJobConfig).1.render_variables "ap_repo_uris" = none ∧
      (htcondor_job_config ps env emptyJobConfig).1.render_variables "ap_repo_pattern" = none) ∧
    (ps.htcondor_getenv = false →
      (htcondor_job_config ps env emptyJobConfig).1.render_variables "ap_software_uris" =
          some (String.intercalate "," env.software.uris) ∧
      (htcondor_job_config ps env emptyJobConfig).1.render_variables "ap_software_pattern" =
          some env.software.pattern ∧
      (htcondor_job_config ps env emptyJobConfig).1.render_variables "ap_repo_uris" =
          some (String.intercalate "," env.repo.uris) ∧
      (htcondor_job_config ps env emptyJobConfig).1.render_variables "ap_repo_pattern" =
          some env.repo.pattern ∧
      (htcondor_job_config ps env emptyJobConfig).1.render_variables "ap_env_path" = none ∧
      (htcondor_job_config ps env emptyJobConfig).1.render_variables "ap_env_pythonpath" = none) := by
  constructor <;> intro hg <;> cases hc : env.cmssw <;>
    simp [htcondor_job_config, h, hg, hc, rvUpdate, emptyJobConfig]

/-- C5 witness: the mode exclusivity evaluated on the concrete
getenv-mode submission. -/
theorem job_config_mode_exclusive_witness :
    (htcondor_job_config psGetenvEx envValidEx emptyJobConfig).1.render_variables "ap_env_path" =
        some envValidEx.env_path ∧
    (htcondor_job_config psGetenvEx envValidEx emptyJobConfig).1.render_variables "ap_env_pythonpath" =
        some envValidEx.env_pythonpath ∧
    (htcondor_job_config psGetenvEx envValidEx emptyJobConfig).1.render_variables "ap_software_uris" = none ∧
    (htcondor_job_config psGetenvEx envValidEx emptyJobConfig).1.render_variables "ap_software_pattern" = none ∧
    (htcondor_job_config psGetenvEx envValidEx emptyJobConfig).1.render_variables "ap_repo_uris" = none ∧
    (htcondor_job_config psGetenvEx envValidEx emptyJobConfig).1.render_variables "ap_repo_pattern" = none :=
  (job_config_mode_exclusive psGetenvEx envValidEx rfl).1 rfl

/-- C6: a `RequestCpus` directive is present if and only if the requested
CPU count is positive (the unset sentinel is negative), and any present
directive carries exactly the requested integer. -/
theorem job_config_request_cpus (ps : HTCondorParams) (env : JobEnv)
    (h : env.proxy_valid = true) :
    ((∃ v, ("RequestCpus", v) ∈
        (htcondor_job_config ps env emptyJobConfig).1.custom_content) ↔
      0 < ps.htcondor_cpus) ∧
    (∀ v, ("RequestCpus", v) ∈
        (htcondor_job_config ps env emptyJobConfig).1.custom_content →
      v = CVal.int ps.htcondor_cpus) := by
  by_cases hc : 0 < ps.htcondor_cpus <;>
    simp [htcondor_job_config, h, emptyJobConfig, hc]

/-- C6 witness: with 4 CPUs requested the directive is present with value
4; with the sentinel default it is absent. -/
theorem job_config_request_cpus_witness :
    ((∃ v, ("RequestCpus", v) ∈
        (htcondor_job_config psStandaloneEx envValidEx emptyJobConfig).1.custom_content) ↔
      0 < psStandaloneEx.htcondor_cpus) ∧
    (∀ v, ("RequestCpus", v) ∈
        (htcondor_job_config psStandaloneEx envValidEx emptyJobConfig).1.custom_content →
      v = CVal.int psStandaloneEx.htcondor_cpus) :=
  job_config_request_cpus psStandaloneEx envValidEx rfl

/-! Supporting lemmas about the exclusion filter on composite archive
names. -/

/-- A match of the anchored filter on a composite name `r ++ t` either
lies entirely inside `t` or swallows all of `t`. -/
theorem strEndsWith_append_cases {r t p : String}
    (h : strEndsWith (r ++ t) p = true) :
    strEndsWith t p = true ∨ t.data <:+ p.data := by
  unfold strEndsWith at h ⊢
  rw [String.data_append] at h
  rw [List.isSuffixOf_iff_suffix] at h ⊢
  exact List.suffix_or_suffix_of_suffix h (List.suffix_append r.data t.data)

/-- A name whose tail already matches the exclusion filter still matches
after any string is prepended. -/
theorem excludedTar_append_true (r : String) {t : String}
    (h : excludedTar t = true) : excludedTar (r ++ t) = true := by
  unfold excludedTar strEndsWith at h ⊢
  simp only [Bool.or_eq_true, List.isSuffixOf_iff_suffix, String.data_append] at h ⊢
  rcases h with ((h | h) | h) | h
  · exact Or.inl (Or.inl (Or.inl (h.trans (List.suffix_append r.data t.data))))
  · exact Or.inl (Or.inl (Or.inr (h.trans (List.suffix_append r.data t.data))))
  · exact Or.inl (Or.inr (h.trans (List.suffix_append r.data t.data)))
  · exact Or.inr (h.trans (List.suffix_append r.data t.data))

/-- A single pattern that matches neither inside `t` nor by swallowing
`t` does not match the composite name. -/
theorem strEndsWith_append_false {t p : String} (r : String)
    (h1 : strEndsWith t p = false) (h2 : ¬ t.data <:+ p.data) :
    strEndsWith (r ++ t) p = false := by
  cases hb : strEndsWith (r ++ t) p with
  | false => rfl
  | true =>
    rcases strEndsWith_append_cases hb with hh | hh
    · rw [h1] at hh; exact absurd hh (by simp)
    · exact absurd hh h2

/-- A tail `t` that matches no exclusion pattern and is swallowed by no
pattern keeps the composite name `r ++ t` unexcluded for every `r`. -/
theorem excludedTar_append_false (r t : String)
    (h1 : excludedTar t = false)
    (hp : ¬ t.data <:+ ".pyc".data) (hg : ¬ t.data <:+ "/.git".data)
    (hz : ¬ t.data <:+ ".tgz".data) (hc : ¬ t.data <:+ "__pycache__".data) :
    excludedTar (r ++ t) = false := by
  unfold excludedTar at h1 ⊢
  simp only [Bool.or_eq_false_iff] at h1 ⊢
  exact ⟨⟨⟨strEndsWith_append_false r h1.1.1.1 hp,
    strEndsWith_append_false r h1.1.1.2 hg⟩,
    strEndsWith_append_false r h1.1.2 hz⟩,
    strEndsWith_append_false r h1.2 hc⟩

/-- Appending a non-empty string changes a string. -/
theorem str_append_ne_self (r a : String) (ha : a ≠ "") : r ++ a ≠ r := by
  intro he
  have hd : r.data ++ a.data = r.data := by
    simpa [String.data_append] using congrArg String.data he
  have hl := congrArg List.length hd
  simp only [List.length_append] at hl
  have : a.data = [] := List.eq_nil_of_length_eq_zero (by omega)
  exact ha (String.ext this)

/-- Left-cancellation of string append, contrapositive form. -/
theorem str_append_left_ne (r : String) {a b : String} (hab : a ≠ b) :
    r ++ a ≠ r ++ b := by
  intro he
  have hd : r.data ++ a.data = r.data ++ b.data := by
    simpa [String.data_append] using congrArg String.data he
  exact hab (String.ext (List.append_cancel_left hd))

/-- C7: archiving a source tree that contains `.git/config`,
`module/__pycache__/x.pyc`, `pkg/build.tgz` and `src/module.py` under a
root directory `r` (itself not matching the exclusion filter, as for the
actual software directory) produces an archive that contains the
`src/module.py` entry and none of the three excluded entries. -/
theorem software_archive_excludes (r : String) (h : excludedTar r = false) :
    (r ++ "/src/module.py") ∈ bundleArchive (FsEntry.dir r
      [FsEntry.dir ".git" [FsEntry.file "config"],
       FsEntry.dir "module" [FsEntry.dir "__pycache__" [FsEntry.file "x.pyc"]],
       FsEntry.dir "pkg" [FsEntry.file "build.tgz"],
       FsEntry.dir "src" [FsEntry.file "module.py"]]) ∧
    (r ++ "/.git/config") ∉ bundleArchive (FsEntry.dir r
      [FsEntry.dir ".git" [FsEntry.file "config"],
       FsEntry.dir "module" [FsEntry.dir "__pycache__" [FsEntry.file "x.pyc"]],
       FsEntry.dir "pkg" [FsEntry.file "build.tgz"],
       FsEntry.dir "src" [FsEntry.file "module.py"]]) ∧
    (r ++ "/module/__pycache__/x.pyc") ∉ bundleArchive (FsEntry.dir r
      [FsEntry.dir ".git" [FsEntry.file "config"],
       FsEntry.dir "module" [FsEntry.dir "__pycache__" [FsEntry.file "x.pyc"]],
       FsEntry.dir "pkg" [FsEntry.file "build.tgz"],
       FsEntry.dir "src" [FsEntry.file "module.py"]]) ∧
    (r ++ "/pkg/build.tgz") ∉ bundleArchive (FsEntry.dir r
      [FsEntry.dir ".git" [FsEntry.file "config"],
       FsEntry.dir "module" [FsEntry.dir "__pycache__" [FsEntry.file "x.pyc"]],
       FsEntry.dir "pkg" [FsEntry.file "build.tgz"],
       FsEntry.dir "src" [FsEntry.file "module.py"]]) := by
  have f1 : ("/" : String) ++ ".git" = "/.git" := by decide
  have f2 : ("/" : String) ++ "module" = "/module" := by decide
  have f3 : ("/" : String) ++ "pkg" = "/pkg" := by decide
  have f4 : ("/" : String) ++ "src" = "/src" := by decide
  have f5 : ("/" : String) ++ "__pycache__" = "/__pycache__" := by decide
  have f6 : ("/module" : String) ++ "/__pycache__" = "/module/__pycache__" := by decide
  have f7 : ("/" : String) ++ "x.pyc" = "/x.pyc" := by decide
  have f8 : ("__pycache__" : String) ++ "/x.pyc" = "__pycache__/x.pyc" := by decide
  have f9 : ("/" : String) ++ "__pycache__/x.pyc" = "/__pycache__/x.pyc" := by decide
  have f10 : ("/module" : String) ++ "/__pycache__/x.pyc" = "/module/__pycache__/x.pyc" := by decide
  have f11 : ("/" : String) ++ "build.tgz" = "/build.tgz" := by decide
  have f12 : ("/pkg" : String) ++ "/build.tgz" = "/pkg/build.tgz" := by decide
  have f13 : ("/" : String) ++ "module.py" = "/module.py" := by decide
  have f14 : ("/src" : String) ++ "/module.py" = "/src/module.py" := by decide
  have hgit : excludedTar (r ++ "/.git") = true :=
    excludedTar_append_true r (by decide)
  have hmod : excludedTar (r ++ "/module") = false :=
    excludedTar_append_false r "/module" (by decide) (by decide) (by decide)
      (by decide) (by decide)
  have hpyc : excludedTar (r ++ "/module/__pycache__") = true :=
    excludedTar_append_true r (by decide)
  have hpkg : excludedTar (r ++ "/pkg") = false :=
    excludedTar_append_false r "/pkg" (by decide) (by decide) (by decide)
      (by decide) (by decide)
  have htgz : excludedTar (r ++ "/pkg/build.tgz") = true :=
    excludedTar_append_true r (by decide)
  have hsrc : excludedTar (r ++ "/src") = false :=
    excludedTar_append_false r "/src" (by decide) (by decide) (by decide)
      (by decide) (by decide)
  have hpy : excludedTar (r ++ "/src/module.py") = false :=
    excludedTar_append_false r "/src/module.py" (by decide) (by decide)
      (by decide) (by decide) (by decide)
  have harch : bundleArchive (FsEntry.dir r
      [FsEntry.dir ".git" [FsEntry.file "config"],
       FsEntry.dir "module" [FsEntry.dir "__pycache__" [FsEntry.file "x.pyc"]],
       FsEntry.dir "pkg" [FsEntry.file "build.tgz"],
       FsEntry.dir "src" [FsEntry.file "module.py"]]) =
      [r, r ++ "/module", r ++ "/pkg", r ++ "/src", r ++ "/src/module.py"] := by
    simp only [bundleArchive, tarAdd, tarAddList, String.empty_append,
      String.append_assoc, f1, f2, f3, f4, f5, f6, f7, f8, f9, f10, f11, f12, f13, f14,
      h, hgit, hmod, hpyc, hpkg, htgz, hsrc, hpy,
      Bool.false_eq_true, if_false, if_true, List.append_nil, List.nil_append,
      List.cons_append]
  rw [harch]
  refine ⟨by simp, ?_, ?_, ?_⟩ <;>
  · simp only [List.mem_cons, List.not_mem_nil, or_false]
    rintro (he | he | he | he | he) <;>
      first
        | exact str_append_ne_self r _ (by decide) he
        | exact str_append_left_ne r (by decide) he

/-- C7 witness: the archive facts evaluated for the concrete root
directory name `software`. -/
theorem software_archive_excludes_witness :
    ("software" ++ "/src/module.py") ∈ bundleArchive (FsEntry.dir "software"
      [FsEntry.dir ".git" [FsEntry.file "config"],
       FsEntry.dir "module" [FsEntry.dir "__pycache__" [FsEntry.file "x.pyc"]],
       FsEntry.dir "pkg" [FsEntry.file "build.tgz"],
       FsEntry.dir "src" [FsEntry.file "module.py"]]) ∧
    ("software" ++ "/.git/config") ∉ bundleArchive (FsEntry.dir "software"
      [FsEntry.dir ".git" [FsEntry.file "config"],
       FsEntry.dir "module" [FsEntry.dir "__pycache__" [FsEntry.file "x.pyc"]],
       FsEntry.dir "pkg" [FsEntry.file "build.tgz"],
       FsEntry.dir "src" [FsEntry.file "module.py"]]) ∧
    ("software" ++ "/module/__pycache__/x.pyc") ∉ bundleArchive (FsEntry.dir "software"
      [FsEntry.dir ".git" [FsEntry.file "config"],
       FsEntry.dir "module" [FsEntry.dir "__pycache__" [FsEntry.file "x.pyc"]],
       FsEntry.dir "pkg" [FsEntry.file "build.tgz"],
       FsEntry.dir "src" [FsEntry.file "module.py"]]) ∧
    ("software" ++ "/pkg/build.tgz") ∉ bundleArchive (FsEntry.dir "software"
      [FsEntry.dir ".git" [FsEntry.file "config"],
       FsEntry.dir "module" [FsEntry.dir "__pycache__" [FsEntry.file "x.pyc"]],
       FsEntry.dir "pkg" [FsEntry.file "build.tgz"],
       FsEntry.dir "src" [FsEntry.file "module.py"]]) :=
  software_archive_excludes "software" (by decide)

end Remote
